import Mathlib

/-!
Verification of the request-translation and response-assembly layer of
stac-server (src/src/lib/api.js) against its natural-language specification.

The JavaScript module is shallowly embedded: JS values that flow through the
untyped request-parameter dictionary are modelled by the inductive `Json`
(numbers as rationals, since no claim depends on binary floating point
rounding), JS exceptions by `Except JsError`, and the backend collaborator by
a record of functions.  Each `extract*` function, the pagination-link builder,
`searchItems`, `aggregate` and `getItem` are translated statement by statement
from the source.
-/

namespace StacApi

/-- Model of a JS/JSON value as it appears in request parameters and
backend documents.  JS `undefined` is modelled by `Option` at each use
site; `null` is the explicit JSON null. -/
inductive Json where
  | null
  | bool (b : Bool)
  | num (q : Rat)
  | str (s : String)
  | arr (xs : List Json)
  | obj (kvs : List (String × Json))

/-- JS truthiness of a value: null, false, 0 and the empty string are falsy;
every array and object (even empty ones) is truthy. -/
def jsTruthy : Json → Bool
  | .null => false
  | .bool b => b
  | .num q => !(q == 0)
  | .str s => !(s == "")
  | .arr _ => true
  | .obj _ => true

/-- Truthiness of a possibly-absent (JS `undefined`) value. -/
def truthyOpt : Option Json → Bool
  | none => false
  | some j => jsTruthy j

/-- JS `a || b` on possibly-absent values: the first operand when truthy,
otherwise the second operand (whatever it is). -/
def jsOrOpt (a b : Option Json) : Option Json :=
  if truthyOpt a then a else b

/-- Build a string from a list of characters. -/
def strOfChars (cs : List Char) : String := ⟨cs⟩

/-- Split a list of characters at a separator character; like JS
`String.prototype.split` with a one-character separator, the result is
never empty (the empty input yields one empty chunk). -/
def splitChars (sep : Char) : List Char → List (List Char)
  | [] => [[]]
  | c :: rest =>
    let r := splitChars sep rest
    if c = sep then [] :: r
    else
      match r with
      | g :: gs => (c :: g) :: gs
      | [] => [[c]]

/-- JS `s.split(sep)` for a one-character separator. -/
def jsSplit (s : String) (sep : Char) : List String :=
  (splitChars sep s.data).map strOfChars

/-- ASCII upper-casing of one character; JS `toUpperCase` restricted to the
ASCII range, which covers every character the datetime grammar accepts. -/
def charUpper (c : Char) : Char :=
  if 'a' ≤ c ∧ c ≤ 'z' then Char.ofNat (c.toNat - 32) else c

/-- JS `s.toUpperCase()` (ASCII model). -/
def jsToUpper (s : String) : String := strOfChars (s.data.map charUpper)

/-- Join a list of strings with a separator string. -/
def joinWith (sep : String) : List String → String
  | [] => ""
  | [x] => x
  | x :: xs => x ++ sep ++ joinWith sep xs

/-- Join with a comma, as JS `Array.prototype.join()` does by default. -/
def joinComma (xs : List String) : String := joinWith "," xs

/-- Decimal rendering of a rational whose reduced denominator divides a
power of ten, which is the case for every value produced by parsing a
decimal literal; this models how JS renders such numbers as strings. -/
def ratToJsString (q : Rat) : String :=
  if q.den = 1 then toString q.num
  else
    match (List.range 64).find? (fun k => (q * (10 : Rat) ^ k).den = 1) with
    | some k =>
      let scaled : Int := (q * (10 : Rat) ^ k).num
      let sign := if scaled < 0 then "-" else ""
      let a := scaled.natAbs
      let ip := a / 10 ^ k
      let fp := a % 10 ^ k
      let fpStr := String.mk (List.replicate (k - (toString fp).length) '0') ++ toString fp
      let fpTrim := strOfChars (fpStr.data.reverse.dropWhile (fun c => c = '0')).reverse
      sign ++ toString ip ++ "." ++ fpTrim
    | none => toString q.num ++ "/" ++ toString q.den

mutual

/-- JS `String(v)` coercion: arrays join their elements with commas
(null elements render empty), plain objects render as the fixed
object tag. -/
def jsToString : Json → String
  | .null => "null"
  | .bool true => "true"
  | .bool false => "false"
  | .num q => ratToJsString q
  | .str s => s
  | .arr xs => joinComma (jsToStringElems xs)
  | .obj _ => "[object Object]"

/-- Stringification of array elements for `Array.prototype.toString`:
null (and undefined) elements become the empty string. -/
def jsToStringElems : List Json → List String
  | [] => []
  | .null :: xs => "" :: jsToStringElems xs
  | x :: xs => jsToString x :: jsToStringElems xs

end

/-- Opening brace character, kept out of string literals. -/
def lbraceC : Char := Char.ofNat 123

/-- Closing brace character, kept out of string literals. -/
def rbraceC : Char := Char.ofNat 125

/-- JSON string quoting for `JSON.stringify` (basic escapes). -/
def jsonQuote (s : String) : String :=
  let esc : Char → List Char := fun c =>
    if c = '"' then ['\\', '"']
    else if c = '\\' then ['\\', '\\']
    else if c = '\n' then ['\\', 'n']
    else if c = '\r' then ['\\', 'r']
    else if c = '\t' then ['\\', 't']
    else [c]
  "\"" ++ strOfChars (s.data.flatMap esc) ++ "\""

mutual

/-- Model of `JSON.stringify` on the `Json` value model. -/
def jsonStringify : Json → String
  | .null => "null"
  | .bool true => "true"
  | .bool false => "false"
  | .num q => ratToJsString q
  | .str s => jsonQuote s
  | .arr xs => "[" ++ joinComma (jsonStringifyList xs) ++ "]"
  | .obj kvs => strOfChars [lbraceC] ++ joinComma (jsonStringifyKVs kvs) ++ strOfChars [rbraceC]

/-- Serialize the elements of a JSON array. -/
def jsonStringifyList : List Json → List String
  | [] => []
  | x :: xs => jsonStringify x :: jsonStringifyList xs

/-- Serialize the members of a JSON object. -/
def jsonStringifyKVs : List (String × Json) → List String
  | [] => []
  | (k, v) :: xs => (jsonQuote k ++ ":" ++ jsonStringify v) :: jsonStringifyKVs xs

end

/-- Hexadecimal digit for a value below 16, upper case as
`encodeURIComponent` produces. -/
def hexDigit (n : Nat) : Char :=
  if n < 10 then Char.ofNat (48 + n) else Char.ofNat (55 + n)

/-- Bytes left unescaped by `encodeURIComponent`: ASCII letters, digits and
the punctuation - _ . ! ~ * apostrophe ( ). -/
def isUnreservedByte (b : Nat) : Bool :=
  (65 ≤ b ∧ b ≤ 90) ∨ (97 ≤ b ∧ b ≤ 122) ∨ (48 ≤ b ∧ b ≤ 57) ∨
    b = 45 ∨ b = 95 ∨ b = 46 ∨ b = 33 ∨ b = 126 ∨ b = 42 ∨ b = 39 ∨ b = 40 ∨ b = 41

/-- Model of JS `encodeURIComponent`: percent-encodes every UTF-8 byte
outside the unreserved set. -/
def encodeURIComponent (s : String) : String :=
  strOfChars <| s.toUTF8.toList.flatMap fun b =>
    let n := b.toNat
    if isUnreservedByte n then [Char.ofNat n]
    else ['%', hexDigit (n / 16), hexDigit (n % 16)]

/-- One decimal digit? -/
def isDigitChar (c : Char) : Bool := '0' ≤ c ∧ c ≤ '9'

/-- Numeric value of a digit list (most significant first). -/
def digitsVal (cs : List Char) : Nat :=
  cs.foldl (fun a c => a * 10 + (c.toNat - 48)) 0

/-- JS whitespace skipped by `parseInt` / `parseFloat`. -/
def isJsWs (c : Char) : Bool :=
  c = ' ' ∨ c = '\t' ∨ c = '\n' ∨ c = '\r' ∨ c = Char.ofNat 11 ∨ c = Char.ofNat 12

/-- Value of a hexadecimal digit character, if it is one. -/
def hexVal (c : Char) : Option Nat :=
  if '0' ≤ c ∧ c ≤ '9' then some (c.toNat - 48)
  else if 'a' ≤ c ∧ c ≤ 'f' then some (c.toNat - 87)
  else if 'A' ≤ c ∧ c ≤ 'F' then some (c.toNat - 55)
  else none

/-- Model of JS `parseInt(s)` with no radix argument: skip leading
whitespace, optional sign, then a 0x/0X hexadecimal literal or a leading
run of decimal digits; `none` models NaN (no digits found). -/
def jsParseInt (s : String) : Option Int :=
  let cs := s.data.dropWhile isJsWs
  let (neg, cs) : Bool × List Char :=
    match cs with
    | '-' :: rest => (true, rest)
    | '+' :: rest => (false, rest)
    | _ => (false, cs)
  let mag : Option Nat :=
    match cs with
    | '0' :: 'x' :: rest | '0' :: 'X' :: rest =>
      let hs := rest.takeWhile (fun c => (hexVal c).isSome)
      if hs.isEmpty then none
      else some (hs.foldl (fun a c => a * 16 + (hexVal c).getD 0) 0)
    | _ =>
      let ds := cs.takeWhile isDigitChar
      if ds.isEmpty then none else some (digitsVal ds)
  mag.map fun m => if neg then -(m : Int) else (m : Int)

/-- Model of JS `parseFloat(s)`: skip leading whitespace, optional sign,
then the longest prefix of the form digits [ . digits ] [ e/E [sign] digits ];
`none` models NaN.  The value is exact (a rational); the special literal
Infinity is not modelled and is treated as non-numeric. -/
def jsParseFloat (s : String) : Option Rat :=
  let cs := s.data.dropWhile isJsWs
  let (neg, cs) : Bool × List Char :=
    match cs with
    | '-' :: rest => (true, rest)
    | '+' :: rest => (false, rest)
    | _ => (false, cs)
  let intDs := cs.takeWhile isDigitChar
  let cs1 := cs.dropWhile isDigitChar
  let (fracDs, cs2) : List Char × List Char :=
    match cs1 with
    | '.' :: rest => (rest.takeWhile isDigitChar, rest.dropWhile isDigitChar)
    | _ => ([], cs1)
  if intDs.isEmpty ∧ fracDs.isEmpty then none
  else
    let mant : Int := (digitsVal (intDs ++ fracDs) : Int)
    let scale : Nat := fracDs.length
    let expo : Int :=
      match cs2 with
      | 'e' :: rest | 'E' :: rest =>
        let (eneg, rest2) : Bool × List Char :=
          match rest with
          | '-' :: r => (true, r)
          | '+' :: r => (false, r)
          | _ => (false, rest)
        let eds := rest2.takeWhile isDigitChar
        if eds.isEmpty then 0
        else if eneg then -(digitsVal eds : Int) else (digitsVal eds : Int)
      | _ => 0
    let signedMant : Int := if neg then -mant else mant
    let e : Int := expo - (scale : Int)
    some (if 0 ≤ e then ((signedMant * 10 ^ e.toNat : Int) : Rat)
          else mkRat signedMant (10 ^ (-e).toNat))

/-- Skip JSON insignificant whitespace. -/
def skipJsonWs (cs : List Char) : List Char :=
  cs.dropWhile (fun c => c = ' ' ∨ c = '\t' ∨ c = '\n' ∨ c = '\r')

/-- Decoding of the single-character JSON string escapes. -/
def escChar (esc : Char) : Option Char :=
  if esc = '"' then some '"'
  else if esc = '\\' then some '\\'
  else if esc = '/' then some '/'
  else if esc = 'b' then some (Char.ofNat 8)
  else if esc = 'f' then some (Char.ofNat 12)
  else if esc = 'n' then some '\n'
  else if esc = 'r' then some '\r'
  else if esc = 't' then some '\t'
  else none

/-- Parse a JSON string body after the opening quote; returns the string and
the characters after the closing quote.  Escapes are decoded; a \u escape
becomes the character with that code unit (surrogate pairs are not
recombined, which no claim depends on). -/
def parseJStr : List Char → Option (String × List Char)
  | [] => none
  | '"' :: rest => some ("", rest)
  | '\\' :: 'u' :: a :: b :: c :: d :: rest =>
    match hexVal a, hexVal b, hexVal c, hexVal d with
    | some va, some vb, some vc, some vd =>
      (parseJStr rest).map fun (s, r) =>
        (strOfChars [Char.ofNat (((va * 16 + vb) * 16 + vc) * 16 + vd)] ++ s, r)
    | _, _, _, _ => none
  | '\\' :: esc :: rest =>
    match escChar esc with
    | some c => (parseJStr rest).map fun (s, r) => (strOfChars [c] ++ s, r)
    | none => none
  | c :: rest => (parseJStr rest).map fun (s, r) => (strOfChars [c] ++ s, r)

/-- Parse a JSON number literal. -/
def parseJNum (cs : List Char) : Option (Rat × List Char) :=
  let (neg, cs) : Bool × List Char :=
    match cs with
    | '-' :: rest => (true, rest)
    | _ => (false, cs)
  let intDs := cs.takeWhile isDigitChar
  if intDs.isEmpty then none
  else
    let cs1 := cs.dropWhile isDigitChar
    let (fracDs, cs2) : List Char × List Char :=
      match cs1 with
      | '.' :: rest =>
        let f := rest.takeWhile isDigitChar
        if f.isEmpty then ([], cs1) else (f, rest.dropWhile isDigitChar)
      | _ => ([], cs1)
    let (expo, cs3) : Int × List Char :=
      match cs2 with
      | 'e' :: rest | 'E' :: rest =>
        let (eneg, rest2) : Bool × List Char :=
          match rest with
          | '-' :: r => (true, r)
          | '+' :: r => (false, r)
          | _ => (false, rest)
        let eds := rest2.takeWhile isDigitChar
        if eds.isEmpty then (0, cs2)
        else ((if eneg then -(digitsVal eds : Int) else (digitsVal eds : Int)),
              rest2.dropWhile isDigitChar)
      | _ => (0, cs2)
    let mant : Int := (digitsVal (intDs ++ fracDs) : Int)
    let signedMant : Int := if neg then -mant else mant
    let e : Int := expo - (fracDs.length : Int)
    some ((if 0 ≤ e then ((signedMant * 10 ^ e.toNat : Int) : Rat)
           else mkRat signedMant (10 ^ (-e).toNat)), cs3)

mutual

/-- Fuel-indexed JSON value parser (model of the grammar accepted by
`JSON.parse`; the fuel bounds recursion depth and is chosen large enough
that it is never exhausted on real inputs). -/
def parseJVal : Nat → List Char → Option (Json × List Char)
  | 0, _ => none
  | fuel + 1, cs =>
    let cs := skipJsonWs cs
    match cs with
    | 'n' :: 'u' :: 'l' :: 'l' :: rest => some (.null, rest)
    | 't' :: 'r' :: 'u' :: 'e' :: rest => some (.bool true, rest)
    | 'f' :: 'a' :: 'l' :: 's' :: 'e' :: rest => some (.bool false, rest)
    | '"' :: rest => (parseJStr rest).map fun (s, r) => (.str s, r)
    | '[' :: rest => (parseJItems fuel (skipJsonWs rest)).map fun (xs, r) => (.arr xs, r)
    | c :: rest =>
      if c = lbraceC then
        (parseJMembers fuel (skipJsonWs rest)).map fun (kvs, r) => (.obj kvs, r)
      else
        (parseJNum (c :: rest)).map fun (q, r) => (.num q, r)
    | [] => none

/-- Parse array items after the opening bracket (whitespace skipped). -/
def parseJItems : Nat → List Char → Option (List Json × List Char)
  | 0, _ => none
  | fuel + 1, cs =>
    match cs with
    | ']' :: rest => some ([], rest)
    | _ => do
      let (x, r) ← parseJVal fuel cs
      match skipJsonWs r with
      | ',' :: r2 => (parseJItems fuel (skipJsonWs r2)).map fun (xs, r3) => (x :: xs, r3)
      | ']' :: r2 => some ([x], r2)
      | _ => none

/-- Parse object members after the opening brace (whitespace skipped). -/
def parseJMembers : Nat → List Char → Option (List (String × Json) × List Char)
  | 0, _ => none
  | fuel + 1, cs =>
    if cs.headD ' ' = rbraceC then some ([], cs.tail)
    else
      match cs with
      | '"' :: rest => do
        let (k, r) ← parseJStr rest
        match skipJsonWs r with
        | ':' :: r2 => do
          let (v, r3) ← parseJVal fuel (skipJsonWs r2)
          match skipJsonWs r3 with
          | ',' :: r4 => (parseJMembers fuel (skipJsonWs r4)).map fun (kvs, r5) => ((k, v) :: kvs, r5)
          | c :: r4 =>
            if c = rbraceC then some ([(k, v)], r4) else none
          | [] => none
        | _ => none
      | _ => none

end

/-- Model of `JSON.parse`: `none` models a thrown SyntaxError. -/
def jsonParse (s : String) : Option Json :=
  match parseJVal (4 * s.data.length + 8) s.data with
  | some (j, rest) => if (skipJsonWs rest).isEmpty then some j else none
  | none => none

/-! ## RFC3339 datetimes (model of the regex gate plus luxon parsing) -/

/-- Components captured by the RFC3339 regular expression of the source,
plus the derived millisecond value and timezone offset. -/
structure RawDT where
  year : Nat
  month : Nat
  day : Nat
  hour : Nat
  minute : Nat
  second : Nat
  fracMs : Nat
  offMinutes : Int
deriving DecidableEq, Repr

/-- Take exactly `n` decimal digits, returning their value. -/
def takeDigitsN : Nat → Nat → List Char → Option (Nat × List Char)
  | 0, acc, cs => some (acc, cs)
  | n + 1, acc, cs =>
    match cs with
    | c :: rest =>
      if isDigitChar c then takeDigitsN n (acc * 10 + (c.toNat - 48)) rest else none
    | [] => none

/-- Expect one specific character. -/
def expectChar (c : Char) : List Char → Option (List Char)
  | x :: rest => if x = c then some rest else none
  | [] => none

/-- Milliseconds from the fractional-second digits: the first three digits,
right-padded with zeros (the float floor in luxon agrees with this on all
inputs free of floating-point edge effects). -/
def msOfFrac (ds : List Char) : Nat :=
  digitsVal ((ds ++ ['0', '0', '0']).take 3)

/-- Match the anchored RFC3339 regular expression of the source
(`^\d{4}-\d{2}-\d{2}T\d{2}:\d{2}:\d{2}(.\d+)?(Z|[+-]\d{2}:\d{2})$`),
returning the captured components. -/
def parseRfc3339 (s : String) : Option RawDT := do
  let cs := s.data
  let (y, cs) ← takeDigitsN 4 0 cs
  let cs ← expectChar '-' cs
  let (mo, cs) ← takeDigitsN 2 0 cs
  let cs ← expectChar '-' cs
  let (d, cs) ← takeDigitsN 2 0 cs
  let cs ← expectChar 'T' cs
  let (h, cs) ← takeDigitsN 2 0 cs
  let cs ← expectChar ':' cs
  let (mi, cs) ← takeDigitsN 2 0 cs
  let cs ← expectChar ':' cs
  let (se, cs) ← takeDigitsN 2 0 cs
  let (ms, cs) ←
    match cs with
    | '.' :: rest =>
      let ds := rest.takeWhile isDigitChar
      if ds.isEmpty then none
      else some (msOfFrac ds, rest.dropWhile isDigitChar)
    | _ => some (0, cs)
  match cs with
  | ['Z'] => some ⟨y, mo, d, h, mi, se, ms, 0⟩
  | c :: rest =>
    if c = '+' ∨ c = '-' then do
      let (oh, rest) ← takeDigitsN 2 0 rest
      let rest ← expectChar ':' rest
      let (om, rest) ← takeDigitsN 2 0 rest
      if rest.isEmpty then
        let mag : Int := (oh * 60 + om : Nat)
        some ⟨y, mo, d, h, mi, se, ms, if c = '-' then -mag else mag⟩
      else none
    else none
  | [] => none

/-- Gregorian leap year. -/
def isLeapYear (y : Nat) : Bool := y % 4 = 0 ∧ (y % 100 ≠ 0 ∨ y % 400 = 0)

/-- Days in a month. -/
def daysInMonth (y m : Nat) : Nat :=
  if m = 2 then (if isLeapYear y then 29 else 28)
  else if m = 4 ∨ m = 6 ∨ m = 9 ∨ m = 11 then 30 else 31

/-- Calendar validity as luxon checks it: month and day in range, and the
time either a normal time of day or exactly 24:00:00.000. -/
def rawValid (r : RawDT) : Bool :=
  1 ≤ r.month ∧ r.month ≤ 12 ∧ 1 ≤ r.day ∧ r.day ≤ daysInMonth r.year r.month ∧
    (r.hour ≤ 23 ∨ (r.hour = 24 ∧ r.minute = 0 ∧ r.second = 0 ∧ r.fracMs = 0)) ∧
    r.minute ≤ 59 ∧ r.second ≤ 59

/-- Days from 1970-01-01 for a civil date with year in 0..9999 (the
standard era-based conversion, shifted by 400 years so every intermediate
quantity is a natural number). -/
def daysFromCivil (y m d : Nat) : Int :=
  let yn := y + 400
  let y1 := if m ≤ 2 then yn - 1 else yn
  let era := y1 / 400
  let yoe := y1 - era * 400
  let mp := (m + 9) % 12
  let doy := (153 * mp + 2) / 5 + d - 1
  let doe := yoe * 365 + yoe / 4 - yoe / 100 + doy
  ((era * 146097 + doe : Nat) : Int) - 719468 - 146097

/-- Epoch milliseconds of a parsed datetime, the quantity luxon DateTime
comparison operators compare. -/
def dtMillis (r : RawDT) : Int :=
  ((((daysFromCivil r.year r.month r.day * 24 + (r.hour : Int)) * 60
      + (r.minute : Int) - r.offMinutes) * 60 + (r.second : Int)) * 1000
    + (r.fracMs : Int))

/-! ## Errors and the backend collaborator -/

/-- Errors thrown by the backend collaborator. -/
inductive BackendError where
  | indexNotFound
  | other (msg : String)
deriving DecidableEq, Repr

/-- A thrown JS exception: the ValidationError class of the source, a plain
Error, the SyntaxError of `JSON.parse`, a TypeError from accessing a member
of undefined/null, or a rethrown backend error. -/
inductive JsError where
  | validation (msg : String)
  | generic (msg : String)
  | syntaxError (msg : String)
  | typeError (msg : String)
  | backend (e : BackendError)
deriving DecidableEq, Repr

/-- Modelled from the spec: `isIndexNotFoundError`, imported by the source
from ./database (a module not included under src/), recognizes the
index-missing backend condition described in the specification. -/
def isIndexNotFoundError : BackendError → Bool
  | .indexNotFound => true
  | .other _ => false

/-! ## Request parameters and core JS-object operations -/

/-- The flat request-parameter dictionary handed to the API layer; a field
holds `none` when the key is absent (JS `undefined`). -/
structure Params where
  next : Option Json := none
  bbox : Option Json := none
  intersects : Option Json := none
  datetime : Option Json := none
  query : Option Json := none
  sortby : Option Json := none
  fields : Option Json := none
  ids : Option Json := none
  collections : Option Json := none
  limit : Option Json := none
  page : Option Json := none

/-- JS member access `j[k]`: a TypeError on null, the property value on an
object (undefined when missing), undefined on other primitives. -/
def jsGetField (j : Json) (k : String) : Except JsError (Option Json) :=
  match j with
  | .null => .error (.typeError ("Cannot read properties of null (reading " ++ k ++ ")"))
  | .obj kvs => .ok (kvs.lookup k)
  | _ => .ok none

/-- JS object spread into an object literal: objects are copied shallowly,
arrays become objects keyed by index, primitives contribute nothing. -/
def jsSpread : Json → Json
  | .obj kvs => .obj kvs
  | .arr xs => .obj (((List.range xs.length).zip xs).map fun p => (toString p.1, p.2))
  | _ => .obj []

/-- JS `Object.keys`: own keys of an object, stringified indices of an
array, empty for primitives. -/
def jsObjectKeys : Json → List String
  | .obj kvs => kvs.map Prod.fst
  | .arr xs => (List.range xs.length).map toString
  | _ => []

/-- JS `x || y` where the result is a JS value (second operand used,
whatever it is, when the first is falsy). -/
def jsOrJson (a : Option Json) (b : Json) : Json :=
  match a with
  | some j => if jsTruthy j then j else b
  | none => b

/-- JS ToNumber coercion, restricted to the shapes the bbox comparisons can
meet: null, booleans and numbers are exact; strings receive a trimmed
numeric parse; objects and arrays are approximated as NaN. -/
def jsToNumber : Json → Option Rat
  | .null => some 0
  | .bool b => some (if b then 1 else 0)
  | .num q => some q
  | .str s =>
    let t := strOfChars ((s.data.dropWhile isJsWs).reverse.dropWhile isJsWs).reverse
    if t = "" then some 0 else jsParseFloat t
  | .arr _ => none
  | .obj _ => none

/-- JS relational `a > b`: lexicographic when both operands are strings,
numeric after ToNumber otherwise; any comparison involving NaN is false. -/
def jsGt (a b : Json) : Bool :=
  match a, b with
  | .str x, .str y => decide (y < x)
  | _, _ =>
    match jsToNumber a, jsToNumber b with
    | some qa, some qb => decide (qb < qa)
    | _, _ => false

/-! ## Parameter extraction (lines 18-273 of the source) -/

/-- `extractIntersects`: parse a string as GeoJSON (ValidationError on
failure), shallow-copy a structured value, and reject a Feature or
FeatureCollection (with a plain Error, as in the source). -/
def extractIntersects (p : Params) : Except JsError (Option Json) :=
  match p.intersects with
  | none => .ok none
  | some v =>
    if jsTruthy v then do
      let geojson ←
        match v with
        | .str s =>
          match jsonParse s with
          | some j => pure j
          | none => throw (.validation "Invalid GeoJSON geometry")
        | j => pure (jsSpread j)
      let ty ← jsGetField geojson "type"
      let isFeatureLike :=
        match ty with
        | some (.str t) => t == "FeatureCollection" || t == "Feature"
        | _ => false
      if isFeatureLike then
        throw (.generic "Expected GeoJSON geometry, not Feature or FeatureCollection")
      else
        pure (some geojson)
    else .ok none

/-- Modelled from the spec: the @mapbox/extent library (not included under
src/) converts a validated bounding box to "an equivalent closed polygon
geometry"; the polygon is the closed ring of the four 2D corners, reading
west/south/east/north from positions 0,1,2,3 of a 4-element box and
0,1,3,4 of a 6-element box. -/
def extentPolygon (bboxArray : List Json) : Json :=
  let w := bboxArray.getD 0 .null
  let s := bboxArray.getD 1 .null
  let e := if bboxArray.length = 6 then bboxArray.getD 3 .null else bboxArray.getD 2 .null
  let n := if bboxArray.length = 6 then bboxArray.getD 4 .null else bboxArray.getD 3 .null
  .obj [("type", .str "Polygon"),
        ("coordinates", .arr [.arr [.arr [w, s], .arr [e, s], .arr [e, n], .arr [w, n],
                                    .arr [w, s]]])]

/-- The GET-string bbox array: split on commas, parse each token as a float
and drop the tokens that did not parse (the NaN filter of the source). -/
def parseBboxTokens (toks : List String) : List Json :=
  (toks.filterMap jsParseFloat).map Json.num

/-- `extractBbox`: a GET string is split/parsed/NaN-filtered, a POST array
is taken as is, anything else is an invalid bbox; then the component count
and the south/north latitude order are validated and the box is converted
to a polygon.  (The try/catch of the source around the split can never
fire and is not modelled.) -/
def extractBbox (p : Params) (httpMethod : String := "GET") :
    Except JsError (Option Json) :=
  match p.bbox with
  | none => .ok none
  | some v =>
    if jsTruthy v then do
      let bboxArray ←
        match httpMethod, v with
        | "GET", .str s => pure (parseBboxTokens (jsSplit s ','))
        | "POST", .arr xs => pure xs
        | _, _ => throw (.validation "Invalid bbox")
      if bboxArray.length ≠ 4 ∧ bboxArray.length ≠ 6 then
        throw (.validation "Invalid bbox, must have 4 or 6 points")
      else if (bboxArray.length = 4 ∧ jsGt (bboxArray.getD 1 .null) (bboxArray.getD 3 .null))
          ∨ (bboxArray.length = 6 ∧ jsGt (bboxArray.getD 1 .null) (bboxArray.getD 4 .null)) then
        throw (.validation "Invalid bbox, SW latitude must be less than NE latitude")
      else
        pure (some (extentPolygon bboxArray))
    else .ok none

/-- `extractLimit`: parse the supplied value as an integer; NaN or a
non-positive value is a ValidationError, values above 10000 are clamped to
10000.  (The try/catch of the source around parseInt can never fire and is
not modelled; a non-string value is coerced to a string first, as parseInt
does.) -/
def extractLimit (p : Params) : Except JsError (Option Int) :=
  match p.limit with
  | none => .ok none
  | some v =>
    match jsParseInt (jsToString v) with
    | none =>
      .error (.validation "Invalid limit value, must be a number between 1 and 10000 inclusive")
    | some l =>
      if l ≤ 0 then
        .error (.validation "Invalid limit value, must be a number between 1 and 10000 inclusive")
      else if 10000 < l then .ok (some 10000)
      else .ok (some l)

/-- `extractPage`: parse the supplied value as an integer; NaN or a
non-positive value is a ValidationError. -/
def extractPage (p : Params) : Except JsError (Option Int) :=
  match p.page with
  | none => .ok none
  | some v =>
    match jsParseInt (jsToString v) with
    | none => .error (.validation "Invalid page value, must be a number greater than 1")
    | some l =>
      if l ≤ 0 then .error (.validation "Invalid page value, must be a number greater than 1")
      else .ok (some l)

/-- `rfc3339ToDateTime`: gate the string through the strict RFC3339 pattern,
then through calendar validation, yielding the epoch-millisecond value that
luxon DateTime comparisons use.  (The dynamic luxon reason/explanation text
of the second error message is abstracted to a fixed string.) -/
def rfc3339ToDateTime (s : String) : Except JsError Int :=
  match parseRfc3339 s with
  | none => .error (.validation "datetime value is invalid, does not match RFC3339 format")
  | some r =>
    if rawValid r then .ok (dtMillis r)
    else .error (.validation "datetime value is invalid, unit out of range")

/-- `validateStartAndEndDatetimes`: when both ends are present and the end
instant is strictly earlier than the start instant, fail. -/
def validateStartAndEndDatetimes (startDT endDT : Option Int) : Except JsError Unit :=
  match startDT, endDT with
  | some s, some e =>
    if e < s then
      .error (.validation
        "datetime value is invalid, start datetime must be before end datetime with interval")
    else .ok ()
  | _, _ => .ok ()

/-- `extractDatetime`: uppercase, split on /, reject more than one
separator and fully-open intervals, parse each closed end, check the order
of a doubly-closed interval, and return the uppercased original string. -/
def extractDatetime (p : Params) : Except JsError (Option String) :=
  match p.datetime with
  | none => .ok none
  | some v =>
    if jsTruthy v then
      match v with
      | .str s =>
        let du := jsToUpper s
        let parts := jsSplit du '/'
        if 2 < parts.length then
          .error (.validation "datetime value is invalid, too many forward slashes for an interval")
        else
          let start := parts.headD ""
          let endP := (parts.get? 1).getD ""
          if (start = "" ∧ endP = "") ∨ (start = ".." ∧ endP = "..") ∨
              (start = "" ∧ endP = "..") ∨ (start = ".." ∧ endP = "") then
            .error (.validation
              "datetime value is invalid, at least one end of the interval must be closed")
          else do
            let startDT ← if start ≠ "" ∧ start ≠ ".." then
                (rfc3339ToDateTime start).map some
              else .ok none
            let endDT ← if endP ≠ "" ∧ endP ≠ ".." then
                (rfc3339ToDateTime endP).map some
              else .ok none
            let _ ← validateStartAndEndDatetimes startDT endDT
            .ok (some du)
      | _ => throw (.typeError "datetime.toUpperCase is not a function")
    else .ok none

/-- `extractStacQuery`: a string is parsed as JSON with the SyntaxError of
an unparsable string propagating uncaught (the source does not wrap this
parse); a structured value is shallow-copied. -/
def extractStacQuery (p : Params) : Except JsError (Option Json) :=
  match p.query with
  | none => .ok none
  | some v =>
    if jsTruthy v then
      match v with
      | .str s =>
        match jsonParse s with
        | some j => .ok (some j)
        | none => throw (.syntaxError "Unexpected token in JSON")
      | j => .ok (some (jsSpread j))
    else .ok none

/-- One GET-style sort token: a leading minus means descending, a leading
plus or nothing means ascending. -/
def sortRuleOfToken (tok : String) : Json :=
  match tok.data with
  | '-' :: rest => .obj [("field", .str (strOfChars rest)), ("direction", .str "desc")]
  | '+' :: rest => .obj [("field", .str (strOfChars rest)), ("direction", .str "asc")]
  | _ => .obj [("field", .str tok), ("direction", .str "asc")]

/-- `extractSortby`: a GET string is split into rule objects; a structured
array is copied with slice(); any other truthy value has no slice method
and raises a TypeError. -/
def extractSortby (p : Params) : Except JsError (Option Json) :=
  match p.sortby with
  | none => .ok none
  | some v =>
    if jsTruthy v then
      match v with
      | .str s => .ok (some (.arr ((jsSplit s ',').map sortRuleOfToken)))
      | .arr xs => .ok (some (.arr xs))
      | _ => throw (.typeError "sortby.slice is not a function")
    else .ok none

/-- `extractFields`: a GET string is split on commas and partitioned by the
leading-minus exclusion marker; a structured truthy value passes through;
a present-but-falsy value yields an explicit empty object (and an empty
structured object also passes through as itself). -/
def extractFields (p : Params) : Option Json :=
  match p.fields with
  | none => none
  | some v =>
    if jsTruthy v then
      match v with
      | .str s =>
        let toks := jsSplit s ','
        let includeL := toks.filter fun t => !(t.data.head? == some '-')
        let excludeL := (toks.filter fun t => t.data.head? == some '-').map
          fun t => strOfChars (t.data.drop 1)
        some (.obj [("include", .arr (includeL.map Json.str)),
                    ("exclude", .arr (excludeL.map Json.str))])
      | j => some j
    else some (.obj [])

/-- Shared body of `extractIds` and `extractCollectionIds` (the two source
functions are verbatim copies of each other): a string is parsed as JSON
with a comma-split fallback; an array is copied with slice(); any other
truthy value has no slice method. -/
def idsOfVal (v : Json) : Except JsError (Option Json) :=
  if jsTruthy v then
    match v with
    | .str s =>
      match jsonParse s with
      | some j => .ok (some j)
      | none => .ok (some (.arr ((jsSplit s ',').map Json.str)))
    | .arr xs => .ok (some (.arr xs))
    | _ => throw (.typeError "slice is not a function")
  else .ok none

/-- `extractIds`. -/
def extractIds (p : Params) : Except JsError (Option Json) :=
  match p.ids with
  | none => .ok none
  | some v => idsOfVal v

/-- `extractCollectionIds`. -/
def extractCollectionIds (p : Params) : Except JsError (Option Json) :=
  match p.collections with
  | none => .ok none
  | some v => idsOfVal v

/-! ## Items, links and response assembly (lines 310-481 of the source) -/

/-- A primitive field value of an item record (STAC ids and datetimes are
strings or numbers; nothing in the claims needs richer item fields). -/
inductive JLit where
  | str (s : String)
  | num (n : Int)
deriving DecidableEq, Repr

/-- JS `String(v)` for an item field value. -/
def jlitToString : JLit → String
  | .str s => s
  | .num n => toString n

/-- `Array.prototype.join` rendering of one element: undefined renders as
the empty string. -/
def joinElem : Option JLit → String
  | none => ""
  | some l => jlitToString l

/-- Template-literal rendering: undefined renders as the string
"undefined". -/
def jlitTemplate : Option JLit → String
  | none => "undefined"
  | some l => jlitToString l

/-- The parameters carried by the body of a POST next link: the search
parameters plus the raw bbox and intersects values, the limit, and the
derived cursor, after lodash pickBy dropped the falsy entries. -/
structure NextParams where
  datetime : Option Json := none
  intersects : Option Json := none
  query : Option Json := none
  sortby : Option Json := none
  fields : Option Json := none
  ids : Option Json := none
  collections : Option Json := none
  next : Option Json := none
  bbox : Option Json := none
  limit : Option Json := none

/-- A hypermedia link object; absent JS properties are `none`. -/
structure Link where
  rel : String
  type : Option String := none
  href : Option String := none
  method : Option String := none
  title : Option String := none
  merge : Option Bool := none
  body : Option NextParams := none

/-- An item record as returned by the backend: the fields the API layer
reads (id, collection, the properties.datetime path), a map for any other
top-level key, the links array when present, and the type tag. -/
structure Item where
  id : Option JLit := none
  collection : Option JLit := none
  propertiesDatetime : Option JLit := none
  extra : List (String × JLit) := []
  links : Option (List Link) := none
  type : Option String := none

/-- lodash `get(item, path)` for the paths the source uses: the nested
properties.datetime path and top-level keys (other keys are looked up in
the extra map). -/
def itemGet (it : Item) : String → Option JLit
  | "properties.datetime" => it.propertiesDatetime
  | "id" => it.id
  | "collection" => it.collection
  | k => it.extra.lookup k

/-- The environment-derived configuration the response assembly reads. -/
structure Env where
  stacVersion : Option String := none

/-- JS `process.env.X || dflt`: an unset or empty variable falls back. -/
def envOr (v : Option String) (dflt : String) : String :=
  match v with
  | some s => if s = "" then dflt else s
  | none => dflt

/-- The search-query object sent to the backend (`searchParams` in the
source, plus the `id` key that `getItem` puts in its query). -/
structure SearchParams where
  datetime : Option Json := none
  intersects : Option Json := none
  query : Option Json := none
  sortby : Option Json := none
  fields : Option Json := none
  ids : Option Json := none
  collections : Option Json := none
  next : Option Json := none
  id : Option Json := none

/-- lodash `pickBy` on one entry: a falsy value is removed. -/
def pickOpt (o : Option Json) : Option Json :=
  match o with
  | some j => if jsTruthy j then some j else none
  | none => none

/-- lodash `pickBy` over the search-parameter object. -/
def pickBySearchParams (sp : SearchParams) : SearchParams :=
  { datetime := pickOpt sp.datetime, intersects := pickOpt sp.intersects,
    query := pickOpt sp.query, sortby := pickOpt sp.sortby,
    fields := pickOpt sp.fields, ids := pickOpt sp.ids,
    collections := pickOpt sp.collections, next := pickOpt sp.next,
    id := pickOpt sp.id }

/-- lodash `pickBy` over the assigned next-link parameter object. -/
def pickByNextParams (np : NextParams) : NextParams :=
  { datetime := pickOpt np.datetime, intersects := pickOpt np.intersects,
    query := pickOpt np.query, sortby := pickOpt np.sortby,
    fields := pickOpt np.fields, ids := pickOpt np.ids,
    collections := pickOpt np.collections, next := pickOpt np.next,
    bbox := pickOpt np.bbox, limit := pickOpt np.limit }

/-- The context block of a backend search response. -/
structure EsContext where
  matched : Int := 0
  returned : Int := 0
  limit : Option Int := none
deriving DecidableEq, Repr

/-- A backend search response. -/
structure EsResponse where
  context : EsContext := {}
  results : List Item := []

/-- A bucket of a backend aggregation. -/
structure EsBucket where
  key : Option Json := none
  key_as_string : Option Json := none
  doc_count : Option Json := none
  toVal : Option Json := none
  fromVal : Option Json := none

/-- One named backend aggregation payload (`toVal`/`fromVal` model the JS
keys to/from, which are reserved words in Lean). -/
structure EsAgg where
  value : Option Json := none
  value_as_string : Option Json := none
  sum_other_doc_count : Option Json := none
  buckets : Option (List EsBucket) := none

/-- The body of a backend aggregate response. -/
structure AggBody where
  aggregations : List (String × EsAgg) := []

/-- A backend aggregate response; `body := none` models the empty object
the catch handler substitutes, whose body property is undefined. -/
structure AggEsResponse where
  body : Option AggBody := none

/-- The backend collaborator, consumed through its contract. -/
structure Backend where
  search : SearchParams → Option Int → Option Int → Except BackendError EsResponse
  aggregate : SearchParams → Except BackendError AggEsResponse

/-- `addItemLinks` on one record.  The source destructures the links value
into a local, replaces undefined by a fresh empty array, mutates the local
array (splice of the self link at index 0, then push of parent, collection,
root and thumbnail), and sets the type tag; it never stores the local array
back, so the built links reach the record only through aliasing when the
record already had a links array, and are lost when it did not. -/
def addItemLink1 (endpoint : String) (result : Item) : Item :=
  let c := jlitTemplate result.collection
  let i := jlitTemplate result.id
  let selfL : Link :=
    { rel := "self", type := some "application/geo+json",
      href := some (endpoint ++ "/collections/" ++ c ++ "/items/" ++ i) }
  let parentL : Link :=
    { rel := "parent", type := some "application/json",
      href := some (endpoint ++ "/collections/" ++ c) }
  let collectionL : Link :=
    { rel := "collection", type := some "application/json",
      href := some (endpoint ++ "/collections/" ++ c) }
  let rootL : Link :=
    { rel := "root", type := some "application/geo+json", href := some endpoint }
  let thumbnailL : Link :=
    { rel := "thumbnail",
      href := some (endpoint ++ "/collections/" ++ c ++ "/items/" ++ i ++ "/thumbnail") }
  { result with
    type := some "Feature",
    links := match result.links with
      | none => none
      | some ls => some (selfL :: ls ++ [parentL, collectionL, rootL, thumbnailL]) }

/-- `addItemLinks` over a result list. -/
def addItemLinks (results : List Item) (endpoint : String) : List Item :=
  results.map (addItemLink1 endpoint)

/-- The feature-collection response document. -/
structure FeatureCollectionDoc where
  type : String
  stac_version : String
  stac_extensions : List Json
  context : EsContext
  numberMatched : Int
  numberReturned : Int
  features : List Item
  links : List Link

/-- `wrapResponseInFeatureCollection` (the STAC_VERSION environment value
is threaded in explicitly). -/
def wrapResponseInFeatureCollection (env : Env) (context : EsContext)
    (features : List Item := []) (links : List Link := []) : FeatureCollectionDoc :=
  { type := "FeatureCollection",
    stac_version := envOr env.stacVersion "1.0.0",
    stac_extensions := [],
    context := context,
    numberMatched := context.matched,
    numberReturned := context.returned,
    features := features,
    links := links }

/-! ## Pagination link construction (lines 427-481 of the source) -/

/-- The default cursor key paths used when no explicit sort was supplied. -/
def defaultNextKeys : List String := ["properties.datetime", "id", "collection"]

/-- The cursor key computation of `buildPaginationLinks`:
`sortby ? Object.keys(sortby) : default`.  Note that the extracted sortby
value is an array of rule objects, so `Object.keys` yields its stringified
indices, not field paths. -/
def nextCursorKeys (sortby : Option Json) : List String :=
  if truthyOpt sortby then jsObjectKeys (sortby.getD .null) else defaultNextKeys

/-- The cursor value: the values read from the last item at each cursor key
path, joined with commas (undefined values render empty). -/
def nextCursor (sortby : Option Json) (lastItem : Item) : String :=
  joinComma ((nextCursorKeys sortby).map fun k => joinElem (itemGet lastItem k))

/-- The compact query-string re-serialization of one sort rule. -/
def sortFieldCompact (r : Json) : String :=
  let dir : Option Json :=
    match r with
    | .obj kvs => kvs.lookup "direction"
    | _ => none
  let fld : Option Json :=
    match r with
    | .obj kvs => kvs.lookup "field"
    | _ => none
  match dir with
  | some (.str "asc") =>
    (match fld with
     | none => ""
     | some .null => ""
     | some j => jsToString j)
  | _ => "-" ++ (match fld with | none => "undefined" | some j => jsToString j)

/-- Compact re-serialization of the sortby value for the query string (a
non-array object has an undefined length, so the loop body never runs). -/
def sortbyCompact : Json → String
  | .arr rules => joinComma (rules.map sortFieldCompact)
  | _ => ""

/-- Query-string rendering of one parameter value: objects are JSON-encoded
except sort rules (compact form) and collection lists (comma-joined);
primitives are string-coerced. -/
def serializeParam (k : String) (j : Json) : String :=
  match j with
  | .arr _ | .obj _ =>
    if k = "sortby" then sortbyCompact j
    else if k = "collections" then jsToString j
    else jsonStringify j
  | _ => jsToString j

/-- One optional entry of the next-parameter dictionary. -/
def entryOpt (k : String) (o : Option Json) : List (String × Json) :=
  match o with
  | some j => [(k, j)]
  | none => []

/-- The present entries of the next-parameter dictionary, in a fixed
canonical order (the exact JS insertion order of keys is an artifact no
claim depends on). -/
def npEntries (np : NextParams) : List (String × Json) :=
  entryOpt "datetime" np.datetime ++ entryOpt "intersects" np.intersects ++
    entryOpt "query" np.query ++ entryOpt "sortby" np.sortby ++
    entryOpt "fields" np.fields ++ entryOpt "ids" np.ids ++
    entryOpt "collections" np.collections ++ entryOpt "next" np.next ++
    entryOpt "bbox" np.bbox ++ entryOpt "limit" np.limit

/-- `dictToURI`: percent-encoded key=value pairs joined with ampersands. -/
def dictToURI (np : NextParams) : String :=
  joinWith "&" ((npEntries np).map fun p =>
    encodeURIComponent p.1 ++ "=" ++ encodeURIComponent (serializeParam p.1 p.2))

/-- `buildPaginationLinks`: an empty page yields no link; otherwise one
next link is built whose cursor is derived from the last item, carrying
the original filters plus bbox, intersects, limit and the cursor (falsy
values pruned), encoded in the href for GET and in a body for POST. -/
def buildPaginationLinks (limit : Option Int) (parameters : SearchParams)
    (bbox intersects : Option Json) (endpoint httpMethod : String)
    (sortby : Option Json) (items : List Item) : List Link :=
  match items with
  | [] => []
  | _ :: _ =>
    let lastItem := items.getLastD {}
    let next := nextCursor sortby lastItem
    let nextParams := pickByNextParams
      { datetime := parameters.datetime, intersects := intersects,
        query := parameters.query, sortby := parameters.sortby,
        fields := parameters.fields, ids := parameters.ids,
        collections := parameters.collections, next := some (.str next),
        bbox := bbox, limit := limit.map fun l => Json.num (l : Rat) }
    if httpMethod = "GET" then
      [{ rel := "next", title := some "Next page of Items", method := some httpMethod,
         href := some (endpoint ++ "?" ++ dictToURI nextParams) }]
    else if httpMethod = "POST" then
      [{ rel := "next", title := some "Next page of Items", method := some httpMethod,
         href := some endpoint, merge := some false, body := some nextParams }]
    else
      [{ rel := "next", title := some "Next page of Items", method := some httpMethod }]

/-! ## searchItems (lines 483-570 of the source) -/

/-- The try/catch around the backend search call of `searchItems`
(lines 525-541): an index-missing failure becomes an empty zero-count
response, any other backend failure is rethrown. -/
def searchOrEmpty (backend : Backend) (sp : SearchParams) (page limit : Option Int) :
    Except JsError EsResponse :=
  match backend.search sp page limit with
  | .ok r => .ok r
  | .error e =>
    if isIndexNotFoundError e then
      .ok { context := { matched := 0, returned := 0, limit := limit }, results := [] }
    else .error (.backend e)

/-- `searchItems`: reject a request carrying both bbox and intersects, run
every extractor, assemble and prune the search parameters, force the
collection filter for a collection-scoped request, call the backend
through `searchOrEmpty`, then build pagination links, decorate the items
and wrap everything in a feature collection. -/
def searchItems (collectionId : Option String) (qp : Params) (backend : Backend)
    (endpoint : String) (httpMethod : String) (env : Env) :
    Except JsError FeatureCollectionDoc :=
  if truthyOpt qp.bbox && truthyOpt qp.intersects then
    .error (.validation "Expected bbox OR intersects, not both")
  else do
    let datetime ← extractDatetime qp
    let bboxGeometry ← extractBbox qp httpMethod
    let intersectsGeometry ← extractIntersects qp
    let geometry := jsOrOpt intersectsGeometry bboxGeometry
    let sortby ← extractSortby qp
    let query ← extractStacQuery qp
    let fields := extractFields qp
    let ids ← extractIds qp
    let collections ← extractCollectionIds qp
    let limit ← extractLimit qp
    let page ← extractPage qp
    let searchParams0 := pickBySearchParams
      { datetime := datetime.map Json.str, intersects := geometry, query := query,
        sortby := sortby, fields := fields, ids := ids, collections := collections,
        next := qp.next }
    let sp :=
      match collectionId with
      | some cid =>
        ({ searchParams0 with collections := some (.arr [.str cid]) },
          endpoint ++ "/collections/" ++ cid ++ "/items")
      | none => (searchParams0, endpoint ++ "/search")
    let searchParams := sp.1
    let newEndpoint := sp.2
    let esResponse ← searchOrEmpty backend searchParams page limit
    let responseItems := esResponse.results
    let context := esResponse.context
    let paginationLinks := buildPaginationLinks limit searchParams qp.bbox qp.intersects
      newEndpoint httpMethod sortby responseItems
    let links :=
      match collectionId with
      | some _ => paginationLinks ++
          [{ rel := "self", type := some "application/json", href := some newEndpoint },
           { rel := "root", type := some "application/geo+json", href := some endpoint }]
      | none => paginationLinks
    let items := addItemLinks responseItems endpoint
    pure (wrapResponseInFeatureCollection env context items links)

/-! ## aggregate (lines 572-673 of the source) -/

/-- One bucket of a reshaped frequency-distribution aggregation. -/
structure BucketOut where
  key : Option Json := none
  data_type : String
  frequency : Option Json := none
  toVal : Option Json := none
  fromVal : Option Json := none

/-- One entry of the reshaped aggregation list. -/
structure AggOut where
  name : String
  data_type : String
  value : Option Json := none
  overflow : Option Json := none
  buckets : Option (List BucketOut) := none

/-- The aggregate response document. -/
structure AggregationsDoc where
  aggregations : List AggOut
  links : List Link

/-- `agg`: reshape one named backend aggregation; a missing name or missing
buckets raises a TypeError (the defensive handling the source marks as a
todo is absent). -/
def agg (esAggs : List (String × EsAgg)) (name dataType : String) :
    Except JsError AggOut := do
  let a ←
    match esAggs.lookup name with
    | some a => pure a
    | none => throw (.typeError ("Cannot read properties of undefined (reading buckets)"))
  let bs ←
    match a.buckets with
    | some bs => pure bs
    | none => throw (.typeError "buckets is not iterable")
  pure { name := name, data_type := "frequency_distribution",
         overflow := some (jsOrJson a.sum_other_doc_count (.num 0)),
         buckets := some (bs.map fun b =>
           { key := jsOrOpt b.key_as_string b.key,
             data_type := dataType,
             frequency := b.doc_count,
             toVal := b.toVal, fromVal := b.fromVal }) }

/-- Scalar metric read `esAggs[name][field]`: a TypeError when the named
aggregation is missing, its field value otherwise. -/
def aggMetric (esAggs : List (String × EsAgg)) (name : String)
    (field : EsAgg → Option Json) : Except JsError (Option Json) :=
  match esAggs.lookup name with
  | some a => .ok (field a)
  | none => throw (.typeError ("Cannot read properties of undefined (reading " ++ name ++ ")"))

/-- The try/catch around the backend aggregate call of `aggregate`
(lines 619-629): an index-missing failure is replaced by an empty object
(a response with no body), any other backend failure is rethrown. -/
def aggregateOrEmpty (backend : Backend) (sp : SearchParams) :
    Except JsError AggEsResponse :=
  match backend.aggregate sp with
  | .ok r => .ok r
  | .error e =>
    if isIndexNotFoundError e then .ok { body := none }
    else .error (.backend e)

/-- Destructuring `aggregations` out of the response body: a TypeError
when the body is undefined (as after index-missing recovery). -/
def aggsOfBody : Option AggBody → Except JsError (List (String × EsAgg))
  | some b => .ok b.aggregations
  | none => .error (.typeError "Cannot destructure property aggregations of undefined")

/-- `aggregate`: reject bbox plus intersects, run the extractors, prune the
parameters, call the backend through `aggregateOrEmpty`; the index-missing
recovery leaves a response with no body, so the following destructuring of
aggregations raises a TypeError; otherwise the fixed sequence of metrics
and frequency distributions is reshaped. -/
def aggregate (qp : Params) (backend : Backend) (endpoint httpMethod : String) :
    Except JsError AggregationsDoc :=
  if truthyOpt qp.bbox && truthyOpt qp.intersects then
    .error (.validation "Expected bbox OR intersects, not both")
  else do
    let datetime ← extractDatetime qp
    let bboxGeometry ← extractBbox qp httpMethod
    let intersectsGeometry ← extractIntersects qp
    let geometry := jsOrOpt intersectsGeometry bboxGeometry
    let query ← extractStacQuery qp
    let ids ← extractIds qp
    let collections ← extractCollectionIds qp
    let searchParams := pickBySearchParams
      { datetime := datetime.map Json.str, intersects := geometry, query := query,
        ids := ids, collections := collections }
    let esResponse ← aggregateOrEmpty backend searchParams
    let esAggs ← aggsOfBody esResponse.body
    let totalCount ← aggMetric esAggs "total_count" EsAgg.value
    let dtMax ← aggMetric esAggs "datetime_max" EsAgg.value_as_string
    let dtMin ← aggMetric esAggs "datetime_min" EsAgg.value_as_string
    let a1 ← agg esAggs "collection_frequency" "string"
    let a2 ← agg esAggs "datetime_frequency" "datetime"
    let a3 ← agg esAggs "cloud_cover_frequency" "numeric"
    let a4 ← agg esAggs "grid_code_frequency" "string"
    let a5 ← agg esAggs "platform_frequency" "string"
    let a6 ← agg esAggs "grid_code_landsat_frequency" "string"
    let a7 ← agg esAggs "sun_elevation_frequency" "string"
    let a8 ← agg esAggs "sun_azimuth_frequency" "string"
    let a9 ← agg esAggs "off_nadir_frequency" "string"
    pure
      { aggregations :=
          [{ name := "total_count", data_type := "integer", value := totalCount },
           { name := "datetime_max", data_type := "datetime", value := dtMax },
           { name := "datetime_min", data_type := "datetime", value := dtMin },
           a1, a2, a3, a4, a5, a6, a7, a8, a9],
        links :=
          [{ rel := "self", type := some "application/json",
             href := some (endpoint ++ "/aggregate") },
           { rel := "root", type := some "application/geo+json", href := some endpoint }] }

/-! ## getItem (lines 820-828 of the source) -/

/-- The outcome of `getItem`: the decorated item, or the returned (not
thrown) not-found Error object of the source. -/
inductive GetItemResult where
  | item (it : Item)
  | notFound

/-- `getItem`: query the backend for the one item, decorate the results,
and return the first decorated record, or a not-found marker when the
result list is empty. -/
def getItem (collectionId itemId : String) (backend : Backend) (endpoint : String) :
    Except JsError GetItemResult :=
  match backend.search
      { collections := some (.arr [.str collectionId]), id := some (.str itemId) }
      none none with
  | .error e => .error (.backend e)
  | .ok r =>
    match addItemLinks r.results endpoint with
    | it :: _ => .ok (.item it)
    | [] => .ok .notFound

/-! ## Shared inversion and evaluation lemmas -/

/-- Ok-inversion for a bind in the Except monad. -/
theorem bind_eq_ok {α β : Type} {x : Except JsError α} {f : α → Except JsError β} {b : β}
    (h : x >>= f = .ok b) : ∃ a, x = .ok a ∧ f a = .ok b := by
  cases x with
  | error e => simp [Bind.bind, Except.bind] at h
  | ok a => exact ⟨a, rfl, by simpa [Bind.bind, Except.bind] using h⟩

/-- Whenever `searchItems` succeeds, the features of the response are the
link-decorated backend results. -/
theorem searchItems_ok_features {cid : Option String} {qp : Params} {backend : Backend}
    {endpoint m : String} {env : Env} {resp : FeatureCollectionDoc}
    (h : searchItems cid qp backend endpoint m env = .ok resp) :
    ∃ rs, resp.features = addItemLinks rs endpoint := by
  unfold searchItems at h
  split at h
  · exact absurd h (by simp)
  · obtain ⟨dt, -, h⟩ := bind_eq_ok h
    obtain ⟨bg, -, h⟩ := bind_eq_ok h
    obtain ⟨ig, -, h⟩ := bind_eq_ok h
    obtain ⟨sb, -, h⟩ := bind_eq_ok h
    obtain ⟨q, -, h⟩ := bind_eq_ok h
    obtain ⟨ids, -, h⟩ := bind_eq_ok h
    obtain ⟨cols, -, h⟩ := bind_eq_ok h
    obtain ⟨lim, -, h⟩ := bind_eq_ok h
    obtain ⟨pg, -, h⟩ := bind_eq_ok h
    obtain ⟨es, -, h⟩ := bind_eq_ok h
    refine ⟨es.results, ?_⟩
    rw [← Except.ok.inj h]
    rfl

/-- A successfully parsed RFC3339 string is neither empty nor the
open-interval marker. -/
theorem rfc_ok_shape {x : String} {v : Int} (h : rfc3339ToDateTime x = .ok v) :
    x ≠ "" ∧ x ≠ ".." := by
  constructor
  · rintro rfl
    rw [show rfc3339ToDateTime "" =
        .error (.validation "datetime value is invalid, does not match RFC3339 format") from rfl] at h
    simp at h
  · rintro rfl
    rw [show rfc3339ToDateTime ".." =
        .error (.validation "datetime value is invalid, does not match RFC3339 format") from rfl] at h
    simp at h

/-- In-bounds getD through a `Json.num` map. -/
theorem getD_map_num : ∀ (qs : List Rat) (i : Nat), i < qs.length →
    (qs.map Json.num).getD i .null = .num (qs.getD i 0)
  | [], i, h => by simp at h
  | q :: qs, 0, _ => rfl
  | q :: qs, i + 1, h => by
    simp only [List.map_cons, List.getD_cons_succ]
    exact getD_map_num qs i (by simpa using h)

/-- The JS greater-than on two numbers is the numeric comparison. -/
theorem jsGt_num (a b : Rat) : jsGt (.num a) (.num b) = decide (b < a) := rfl

/-- Every record out of `addItemLinks` carries the Feature type tag. -/
theorem addItemLinks_type (results : List Item) (endpoint : String) (it : Item)
    (h : it ∈ addItemLinks results endpoint) : it.type = some "Feature" := by
  obtain ⟨a, -, rfl⟩ := List.mem_map.mp h
  rfl

/-! ## Claim C1 -/

/-- The sort rules of the C1 scenario: `[ (field id, direction asc) ]`. -/
def c1Sortby : Json := .arr [.obj [("field", .str "id"), ("direction", .str "asc")]]

/-- The last page item of the C1 scenario: `id = 42`. -/
def c1Item : Item := { id := some (.num 42) }

/-- Claim C1 (code-bug evidence): with explicit sort rules
`[ (field id, direction asc) ]` and last item `id = 42`, the cursor keys are
the array indices (`Object.keys` of the rule array), so the cursor value is
the empty string rather than the claimed "42", and the single POST next
link built for the non-empty page carries no `next` entry at all (the empty
cursor is pruned as falsy); the default-sort path does read the documented
field paths, and an empty page yields no pagination link. -/
theorem claim_C1_evidence :
    nextCursorKeys (some c1Sortby) = ["0"] ∧
    nextCursor (some c1Sortby) c1Item = "" ∧
    nextCursor (some c1Sortby) c1Item ≠ "42" ∧
    (buildPaginationLinks (some 10) {} none none "http://e/search" "POST"
        (some c1Sortby) [c1Item]).length = 1 ∧
    ((buildPaginationLinks (some 10) {} none none "http://e/search" "POST"
        (some c1Sortby) [c1Item]).headD { rel := "" }).body.map NextParams.next =
      some none ∧
    nextCursor none c1Item = ",42," ∧
    buildPaginationLinks (some 10) {} none none "http://e/search" "POST"
        (some c1Sortby) [] = [] := by
  refine ⟨rfl, rfl, by decide, rfl, rfl, rfl, rfl⟩

/-! ## Claim C2 -/

/-- A backend whose search and aggregate both fail with the index-missing
condition. -/
def c2Backend : Backend where
  search := fun _ _ _ => .error .indexNotFound
  aggregate := fun _ => .error .indexNotFound

/-- Claim C2 (code-bug evidence): when the backend fails with the
index-missing condition, `searchItems` does recover into the normal
response document with matched = 0, returned = 0 and no features, but
`aggregate` substitutes an empty object whose missing body makes the
destructuring of aggregations raise a TypeError, so the aggregate half of
the claim fails on the code. -/
theorem claim_C2_evidence :
    (∃ resp, searchItems none {} c2Backend "http://e" "GET" {} = .ok resp ∧
      resp.context.matched = 0 ∧ resp.context.returned = 0 ∧ resp.features = []) ∧
    aggregate {} c2Backend "http://e" "GET" =
      .error (.typeError "Cannot destructure property aggregations of undefined") :=
  ⟨⟨_, rfl, rfl, rfl, rfl⟩, rfl⟩

/-! ## Claim C3 -/

/-- Claim C3: for a datetime interval whose two ends both parse as closed
RFC3339 timestamps with the end instant strictly earlier than the start
instant, `extractDatetime` fails with the interval-order validation error;
for an interval with exactly one end equal to the open marker and the
other a valid timestamp, extraction succeeds and returns the uppercased
original string form. -/
theorem claim_C3 (d s e : String)
    (hsplit : jsSplit (jsToUpper d) '/' = [s, e]) :
    (∀ ds de : Int, rfc3339ToDateTime s = .ok ds → rfc3339ToDateTime e = .ok de →
        de < ds →
        extractDatetime { datetime := some (.str d) } =
          .error (.validation
            "datetime value is invalid, start datetime must be before end datetime with interval")) ∧
    (e = ".." → ∀ ds : Int, rfc3339ToDateTime s = .ok ds →
        extractDatetime { datetime := some (.str d) } = .ok (some (jsToUpper d))) ∧
    (s = ".." → ∀ de : Int, rfc3339ToDateTime e = .ok de →
        extractDatetime { datetime := some (.str d) } = .ok (some (jsToUpper d))) := by
  have hd : ¬(d = "") := by
    rintro rfl
    rw [show jsSplit (jsToUpper "") '/' = [""] from rfl] at hsplit
    simp at hsplit
  refine ⟨fun ds de hs he hlt => ?_, fun he0 ds hs => ?_, fun hs0 de he => ?_⟩
  · obtain ⟨hs1, hs2⟩ := rfc_ok_shape hs
    obtain ⟨he1, he2⟩ := rfc_ok_shape he
    simp [extractDatetime, jsTruthy, hd, hsplit, hs1, hs2, he1, he2, hs, he,
      Bind.bind, Except.bind, Except.map, validateStartAndEndDatetimes, hlt]
  · subst he0
    obtain ⟨hs1, hs2⟩ := rfc_ok_shape hs
    simp [extractDatetime, jsTruthy, hd, hsplit, hs1, hs2, hs,
      Bind.bind, Except.bind, Except.map, validateStartAndEndDatetimes]
  · subst hs0
    obtain ⟨he1, he2⟩ := rfc_ok_shape he
    simp [extractDatetime, jsTruthy, hd, hsplit, he1, he2, he,
      Bind.bind, Except.bind, Except.map, validateStartAndEndDatetimes]

/-- Concrete instances of claim C3: a reversed closed interval fails with
the interval-order error, and a half-open interval (with lower-case input)
succeeds returning the uppercased string. -/
theorem claim_C3_witness :
    extractDatetime
        { datetime := some (.str "2020-01-02T00:00:00Z/2020-01-01T00:00:00Z") } =
      .error (.validation
        "datetime value is invalid, start datetime must be before end datetime with interval") ∧
    extractDatetime { datetime := some (.str "2020-01-01t00:00:00z/..") } =
      .ok (some "2020-01-01T00:00:00Z/..") := by
  constructor
  · exact (claim_C3 "2020-01-02T00:00:00Z/2020-01-01T00:00:00Z"
      "2020-01-02T00:00:00Z" "2020-01-01T00:00:00Z" rfl).1 _ _ rfl rfl (by decide)
  · exact (claim_C3 "2020-01-01t00:00:00z/.." "2020-01-01T00:00:00Z" ".." rfl).2.1
      rfl _ rfl

/-! ## Claim C4 -/

/-- Claim C4: for every supplied limit value, `extractLimit` fails with the
limit validation error when the parsed value is NaN or non-positive,
returns the parsed value when it lies between 1 and 10000, and returns
exactly 10000 when the parsed value exceeds 10000. -/
theorem claim_C4 (v : Json) :
    (jsParseInt (jsToString v) = none →
      extractLimit { limit := some v } =
        .error (.validation "Invalid limit value, must be a number between 1 and 10000 inclusive")) ∧
    (∀ n : Int, jsParseInt (jsToString v) = some n → n ≤ 0 →
      extractLimit { limit := some v } =
        .error (.validation "Invalid limit value, must be a number between 1 and 10000 inclusive")) ∧
    (∀ n : Int, jsParseInt (jsToString v) = some n → 1 ≤ n → n ≤ 10000 →
      extractLimit { limit := some v } = .ok (some n)) ∧
    (∀ n : Int, jsParseInt (jsToString v) = some n → 10000 < n →
      extractLimit { limit := some v } = .ok (some 10000)) := by
  refine ⟨fun h => ?_, fun n h hn => ?_, fun n h h1 h2 => ?_, fun n h h1 => ?_⟩
  · simp only [extractLimit, h]
  · simp only [extractLimit, h, if_pos hn]
  · simp only [extractLimit, h]
    rw [if_neg (by omega), if_neg (by omega)]
  · simp only [extractLimit, h]
    rw [if_neg (by omega), if_pos h1]

/-- Concrete instances of claim C4: an in-range limit is returned, an
oversized limit is clamped to 10000, and a non-numeric limit fails. -/
theorem claim_C4_witness :
    extractLimit { limit := some (.str "7") } = .ok (some 7) ∧
    extractLimit { limit := some (.str "20000") } = .ok (some 10000) ∧
    extractLimit { limit := some (.str "abc") } =
      .error (.validation "Invalid limit value, must be a number between 1 and 10000 inclusive") :=
  ⟨(claim_C4 (.str "7")).2.2.1 7 rfl (by decide) (by decide),
   (claim_C4 (.str "20000")).2.2.2 20000 rfl (by decide),
   (claim_C4 (.str "abc")).1 rfl⟩

/-! ## Claim C5 -/

/-- Claim C5: a request supplying both a (truthy) bbox and a (truthy)
intersects value makes both `searchItems` and `aggregate` fail with the
"not both" validation error, for every backend, every other parameter
value and every HTTP method; the quantification over the backend shows the
error is raised independently of, and hence before, any backend call. -/
theorem claim_C5 (cid : Option String) (qp : Params) (backend : Backend)
    (endpoint httpMethod : String) (env : Env) (b i : Json)
    (hb : qp.bbox = some b) (htb : jsTruthy b = true)
    (hi : qp.intersects = some i) (hti : jsTruthy i = true) :
    searchItems cid qp backend endpoint httpMethod env =
      .error (.validation "Expected bbox OR intersects, not both") ∧
    aggregate qp backend endpoint httpMethod =
      .error (.validation "Expected bbox OR intersects, not both") := by
  constructor
  · unfold searchItems
    simp [truthyOpt, hb, hi, htb, hti]
  · unfold aggregate
    simp [truthyOpt, hb, hi, htb, hti]

/-- A backend that would answer every request successfully, used to show
the validation error preempts it. -/
def c5Backend : Backend where
  search := fun _ _ _ => .ok {}
  aggregate := fun _ => .ok {}

/-- The C5 request: an individually valid bbox and an individually valid
intersects geometry, supplied together. -/
def c5Params : Params :=
  { bbox := some (.str "0,0,1,1"), intersects := some (.obj [("type", .str "Point")]) }

/-- Concrete instance of claim C5. -/
theorem claim_C5_witness :
    searchItems none c5Params c5Backend "http://e" "GET" {} =
      .error (.validation "Expected bbox OR intersects, not both") ∧
    aggregate c5Params c5Backend "http://e" "GET" =
      .error (.validation "Expected bbox OR intersects, not both") :=
  claim_C5 none c5Params c5Backend "http://e" "GET" {} _ _ rfl rfl rfl rfl

/-! ## Claim C6 -/

/-- Claim C6: a bounding box of exactly 4 or 6 numeric components with
south latitude at most north latitude (indices 1 and 3, or 1 and 4)
extracts to the equivalent closed polygon; south above north fails with
the latitude validation error; any other component count fails with the
count validation error. -/
theorem claim_C6 (qs : List Rat) :
    (qs.length = 4 → qs.getD 1 0 ≤ qs.getD 3 0 →
      extractBbox { bbox := some (.arr (qs.map Json.num)) } "POST" =
        .ok (some (extentPolygon (qs.map Json.num)))) ∧
    (qs.length = 6 → qs.getD 1 0 ≤ qs.getD 4 0 →
      extractBbox { bbox := some (.arr (qs.map Json.num)) } "POST" =
        .ok (some (extentPolygon (qs.map Json.num)))) ∧
    (qs.length = 4 → qs.getD 3 0 < qs.getD 1 0 →
      extractBbox { bbox := some (.arr (qs.map Json.num)) } "POST" =
        .error (.validation "Invalid bbox, SW latitude must be less than NE latitude")) ∧
    (qs.length = 6 → qs.getD 4 0 < qs.getD 1 0 →
      extractBbox { bbox := some (.arr (qs.map Json.num)) } "POST" =
        .error (.validation "Invalid bbox, SW latitude must be less than NE latitude")) ∧
    (qs.length ≠ 4 → qs.length ≠ 6 →
      extractBbox { bbox := some (.arr (qs.map Json.num)) } "POST" =
        .error (.validation "Invalid bbox, must have 4 or 6 points")) := by
  have hlen : (qs.map Json.num).length = qs.length := List.length_map qs Json.num
  refine ⟨fun h4 hle => ?_, fun h6 hle => ?_, fun h4 hlt => ?_, fun h6 hlt => ?_,
    fun hn4 hn6 => ?_⟩
  · rw [List.getD_eq_getElem qs 0 (show 1 < qs.length by omega),
      List.getD_eq_getElem qs 0 (show 3 < qs.length by omega)] at hle
    simp [extractBbox, jsTruthy, Bind.bind, Except.bind, pure, Except.pure, hlen, h4,
      getD_map_num qs 1 (by omega), getD_map_num qs 3 (by omega), jsGt_num, not_lt.mpr hle]
  · rw [List.getD_eq_getElem qs 0 (show 1 < qs.length by omega),
      List.getD_eq_getElem qs 0 (show 4 < qs.length by omega)] at hle
    simp [extractBbox, jsTruthy, Bind.bind, Except.bind, pure, Except.pure, hlen, h6,
      getD_map_num qs 1 (by omega), getD_map_num qs 4 (by omega), jsGt_num, not_lt.mpr hle]
  · rw [List.getD_eq_getElem qs 0 (show 3 < qs.length by omega),
      List.getD_eq_getElem qs 0 (show 1 < qs.length by omega)] at hlt
    simp [extractBbox, jsTruthy, Bind.bind, Except.bind, pure, Except.pure, hlen, h4,
      getD_map_num qs 1 (by omega), getD_map_num qs 3 (by omega), jsGt_num, hlt]
    rfl
  · rw [List.getD_eq_getElem qs 0 (show 4 < qs.length by omega),
      List.getD_eq_getElem qs 0 (show 1 < qs.length by omega)] at hlt
    simp [extractBbox, jsTruthy, Bind.bind, Except.bind, pure, Except.pure, hlen, h6,
      getD_map_num qs 1 (by omega), getD_map_num qs 4 (by omega), jsGt_num, hlt]
    rfl
  · simp [extractBbox, jsTruthy, Bind.bind, Except.bind, pure, Except.pure, hlen, hn4, hn6]
    rfl

/-- Concrete instances of claim C6: a valid 4-element box becomes a
polygon, a box with south above north fails, and a 5-element box fails. -/
theorem claim_C6_witness :
    extractBbox { bbox := some (.arr [.num 0, .num 0, .num 10, .num 10]) } "POST" =
      .ok (some (extentPolygon [.num 0, .num 0, .num 10, .num 10])) ∧
    extractBbox { bbox := some (.arr [.num 0, .num 10, .num 5, .num 2]) } "POST" =
      .error (.validation "Invalid bbox, SW latitude must be less than NE latitude") ∧
    extractBbox { bbox := some (.arr [.num 0, .num 0, .num 10, .num 10, .num 3]) } "POST" =
      .error (.validation "Invalid bbox, must have 4 or 6 points") :=
  ⟨(claim_C6 [0, 0, 10, 10]).1 rfl (by decide),
   (claim_C6 [0, 10, 5, 2]).2.2.1 rfl (by decide),
   (claim_C6 [0, 0, 10, 10, 3]).2.2.2.2 (by decide) (by decide)⟩

/-! ## Claim C7 -/

/-- An item record with no pre-existing links array. -/
def c7NoLinks : Item := { id := some (.str "i1"), collection := some (.str "c1") }

/-- The same item record with an (empty) pre-existing links array. -/
def c7EmptyLinks : Item :=
  { id := some (.str "i1"), collection := some (.str "c1"), links := some [] }

/-- Claim C7 (code-bug evidence): an item whose record has no pre-existing
links array comes out of `addItemLinks` with no links at all (the built
link array is never stored back), although its type tag is set; an item
that does have a links array receives exactly the five links in the
documented order with the documented targets. -/
theorem claim_C7_evidence :
    (addItemLinks [c7NoLinks] "http://e").map Item.links = [none] ∧
    (addItemLinks [c7NoLinks] "http://e").map Item.type = [some "Feature"] ∧
    (addItemLinks [c7EmptyLinks] "http://e").map
        (fun it => it.links.map (List.map fun l => (l.rel, l.href))) =
      [some [("self", some "http://e/collections/c1/items/i1"),
             ("parent", some "http://e/collections/c1"),
             ("collection", some "http://e/collections/c1"),
             ("root", some "http://e"),
             ("thumbnail", some "http://e/collections/c1/items/i1/thumbnail")]] :=
  ⟨rfl, rfl, rfl⟩

/-! ## Claim C8 -/

/-- Claim C8: the fields string "a,b,-c" extracts to include = a,b and
exclude = c; an explicitly supplied empty structured fields value yields an
explicit empty projection, which is distinct from the absent case. -/
theorem claim_C8 :
    extractFields { fields := some (.str "a,b,-c") } =
      some (.obj [("include", .arr [.str "a", .str "b"]),
                  ("exclude", .arr [.str "c"])]) ∧
    extractFields { fields := some (.obj []) } = some (.obj []) ∧
    extractFields ({} : Params) = none ∧
    some (Json.obj []) ≠ (none : Option Json) :=
  ⟨rfl, rfl, rfl, by simp⟩

/-! ## Claim C9 -/

/-- Claim C9: in the GET bbox path, a comma-separated component that does
not parse as a number is dropped before the component count is checked, so
the 5-token string "1,2,3,4,x" is accepted as a valid 4-element bbox while
the 4-token string "1,2,3,x" is rejected with the component-count error. -/
theorem claim_C9 (pre suf : List String) (t : String) (h : jsParseFloat t = none) :
    parseBboxTokens (pre ++ t :: suf) = parseBboxTokens (pre ++ suf) ∧
    extractBbox { bbox := some (.str "1,2,3,4,x") } "GET" =
      .ok (some (extentPolygon [.num 1, .num 2, .num 3, .num 4])) ∧
    extractBbox { bbox := some (.str "1,2,3,x") } "GET" =
      .error (.validation "Invalid bbox, must have 4 or 6 points") := by
  refine ⟨?_, rfl, rfl⟩
  simp [parseBboxTokens, List.filterMap_append, List.filterMap_cons, h]

/-- Concrete instance of claim C9 with the non-numeric token x dropped
from the middle of the token list. -/
theorem claim_C9_witness :
    parseBboxTokens (["1", "2"] ++ "x" :: ["3", "4"]) =
      parseBboxTokens (["1", "2"] ++ ["3", "4"]) ∧
    extractBbox { bbox := some (.str "1,2,3,4,x") } "GET" =
      .ok (some (extentPolygon [.num 1, .num 2, .num 3, .num 4])) ∧
    extractBbox { bbox := some (.str "1,2,3,x") } "GET" =
      .error (.validation "Invalid bbox, must have 4 or 6 points") :=
  claim_C9 ["1", "2"] ["3", "4"] "x" rfl

/-! ## Claim C10 -/

/-- Claim C10: every record passed through item-link decoration has its
type field set to "Feature"; consequently every feature of a successful
`searchItems` response and every item returned by `getItem` carries
type = "Feature". -/
theorem claim_C10 :
    (∀ (results : List Item) (endpoint : String) (it : Item),
        it ∈ addItemLinks results endpoint → it.type = some "Feature") ∧
    (∀ (cid : Option String) (qp : Params) (backend : Backend) (endpoint m : String)
        (env : Env) (resp : FeatureCollectionDoc),
        searchItems cid qp backend endpoint m env = .ok resp →
        ∀ f ∈ resp.features, f.type = some "Feature") ∧
    (∀ (collectionId itemId : String) (backend : Backend) (endpoint : String) (it : Item),
        getItem collectionId itemId backend endpoint = .ok (.item it) →
        it.type = some "Feature") := by
  refine ⟨addItemLinks_type, fun cid qp b ep m env resp h f hf => ?_,
    fun cI iI b ep it h => ?_⟩
  · obtain ⟨rs, hr⟩ := searchItems_ok_features h
    exact addItemLinks_type rs ep f (hr ▸ hf)
  · unfold getItem at h
    split at h
    · exact absurd h (by simp)
    · rename_i r heq
      rcases hm : addItemLinks r.results ep with - | ⟨a, l⟩ <;> rw [hm] at h
      · simp at h
      · have ha : a = it := by
          have h2 := Except.ok.inj h
          cases h2
          rfl
        exact ha ▸ addItemLinks_type r.results ep a (hm ▸ List.mem_cons_self a l)

/-- The backend item of the C10 scenario. -/
def c10Item0 : Item :=
  { id := some (.str "i1"), collection := some (.str "c1"), links := some [] }

/-- A backend returning exactly one item. -/
def c10Backend : Backend where
  search := fun _ _ _ =>
    .ok { context := { matched := 1, returned := 1 }, results := [c10Item0] }
  aggregate := fun _ => .error .indexNotFound

/-- The concrete successful search response of the C10 scenario. -/
def c10Doc : FeatureCollectionDoc :=
  match searchItems none {} c10Backend "http://e" "GET" {} with
  | .ok r => r
  | .error _ => wrapResponseInFeatureCollection {} {}

/-- The concrete item returned by `getItem` in the C10 scenario. -/
def c10Got : Item :=
  match getItem "c1" "i1" c10Backend "http://e" with
  | .ok (.item it) => it
  | _ => {}

/-- Concrete instances of claim C10 for the decoration, the search
response and the single-item endpoint. -/
theorem claim_C10_witness :
    ((addItemLinks [{ id := some (.str "i1"), collection := some (.str "c1") }]
        "http://e").headD {}).type = some "Feature" ∧
    (c10Doc.features.headD {}).type = some "Feature" ∧
    c10Got.type = some "Feature" := by
  refine ⟨claim_C10.1 [{ id := some (.str "i1"), collection := some (.str "c1") }]
    "http://e" _ (List.Mem.head _), ?_, ?_⟩
  · exact claim_C10.2.1 none {} c10Backend "http://e" "GET" {} c10Doc (by rfl) _
      (List.Mem.head _)
  · exact claim_C10.2.2 "c1" "i1" c10Backend "http://e" c10Got (by rfl)

end StacApi
